import Mathlib

/-!
Verification of the process lifecycle orchestrator of the appdaemon
repository (src/appdaemon/__main__.py, src/appdaemon/appdaemon.py,
src/appdaemon/config.py) against its natural-language specification.

The Python code is shallowly embedded: the orchestrator and supervisor
methods become pure Lean functions over explicit record states, external
effects (logging, task scheduling, subsystem construction) become event
traces, and process exits become an explicit outcome value.
-/

/-! ## Configuration (src/appdaemon/config.py) -/

/--
Embedding of the `ADConfig` pydantic model (config.py lines 10 to 71),
restricted to the fields consumed by the orchestrator core and the claims.
Float-valued fields (latitude, longitude, timewarp, ...) are not consumed
by any claim and are omitted. `apps` mirrors the `apps` property
(config.py lines 55 to 57): apps are enabled unless `disable_apps` is set.
-/
structure ADConfig where
  time_zone : String := "UTC"
  app_dir : Option String := none
  config_dir : Option String := none
  threadpool_workers : Nat := 10
  use_toml : Bool := false
  disable_apps : Bool := false
  exclude_dirs : List String := []
  uvloop : Bool := false
  deriving DecidableEq, Repr

/-- The `apps` property of `ADConfig` (config.py lines 55 to 57). -/
def ADConfig.apps (c : ADConfig) : Bool := !c.disable_apps

/--
Embedding of the `ensure_pychace_excluded` field validator body
(config.py lines 66 to 71): a Python `set.add` of the string
`__pycache__` on the supplied value.
-/
def ensure_pychace_excluded (v : List String) : List String :=
  if "__pycache__" ∈ v then v else v ++ ["__pycache__"]

/--
The caller-supplied raw input to `ADConfig.model_validate`, restricted to
the fields the claims need. `exclude_dirs = none` means the key is absent
from the input mapping, so pydantic uses the field default
(`default_factory=set`).
-/
structure ADConfigInput where
  time_zone : String := "UTC"
  exclude_dirs : Option (List String) := none
  disable_apps : Bool := false
  deriving DecidableEq, Repr

/--
Embedding of how `ADConfig.model_validate` produces the `exclude_dirs`
field (config.py lines 51 and 66 to 71). Pydantic v2 runs a
`field_validator` only on values present in the input; when the key is
absent the `default_factory=set` default is used as-is, because
`validate_default` is not enabled on the field, and the validator body is
skipped.
-/
def validatedExcludeDirs : Option (List String) → List String
  | none => []
  | some v => ensure_pychace_excluded v

/-- Embedding of `ADConfig.model_validate` on the modelled fields. -/
def ADConfig.model_validate (i : ADConfigInput) : ADConfig :=
  { time_zone := i.time_zone
    disable_apps := i.disable_apps
    exclude_dirs := validatedExcludeDirs i.exclude_dirs }

/-! ## Orchestrator construction (src/appdaemon/appdaemon.py) -/

/-- The subsystems constructed by `AppDaemon.__init__` and `register_http`. -/
inductive Subsystem
  | services
  | sequences
  | sched
  | state
  | events
  | callbacks
  | futures
  | appManagement
  | threading
  | executor
  | plugins
  | threadAsync
  | utility
  | adminLoop
  deriving DecidableEq, Repr

/-- The perpetual loop tasks created with `loop.create_task`. -/
inductive TaskKind
  | threadAsyncLoop
  | utilityLoop
  | adminLoopTask
  deriving DecidableEq, Repr

/--
The HTTP layer object as consumed by `AppDaemon.register_http`
(appdaemon.py line 164): only the presence of its `old_admin` and `admin`
attributes is inspected there.
-/
structure HTTPLayer where
  old_admin : Option Unit := none
  admin : Option Unit := none
  deriving DecidableEq, Repr

/--
State of the orchestrator after construction. A subsystem handle is
`none` when the subsystem is absent (disabled by configuration or not yet
registered) and `some flag` when present, where `flag` records whether a
cooperative stop has been requested on it. The executor handle records
its `max_workers` size.
-/
structure AppDaemon where
  config : ADConfig
  booted : String
  stopping : Bool
  services : Option Bool
  sequences : Option Bool
  sched : Option Bool
  state : Option Bool
  events : Option Bool
  callbacks : Option Bool
  futures : Option Bool
  app_management : Option Bool
  threading : Option Bool
  executor : Option Nat
  plugins : Option Bool
  thread_async : Option Bool
  utility : Option Bool
  admin_loop : Option Bool
  http : Option HTTPLayer
  deriving DecidableEq, Repr

/-- Result of `AppDaemon.__init__`: the constructed state, the order in
which subsystems were constructed, and the perpetual tasks scheduled on
the event loop (in scheduling order). -/
structure InitResult where
  state : AppDaemon
  constructionOrder : List Subsystem
  scheduledTasks : List TaskKind
  deriving DecidableEq, Repr

/--
Embedding of `AppDaemon.__init__` (appdaemon.py lines 10 to 131),
following the source statement order: services, sequences, sched, state,
events, callbacks, futures unconditionally (lines 59 to 89); then, only
when apps are enabled, app_management (line 105) followed by threading
(line 109); then executor sized by `threadpool_workers` (line 113) and
plugins (line 116); then, only when apps are enabled, thread_async with
its loop task (lines 123 to 124); finally utility with its loop task
(lines 130 to 131). The app_dir path resolution and check_path calls
(lines 93 to 101) touch the filesystem only and are not modelled.
-/
def AppDaemon.init (cfg : ADConfig) : InitResult :=
  { state :=
    { config := cfg
      booted := "booting"
      stopping := false
      services := some false
      sequences := some false
      sched := some false
      state := some false
      events := some false
      callbacks := some false
      futures := some false
      app_management := if cfg.apps then some false else none
      threading := if cfg.apps then some false else none
      executor := some cfg.threadpool_workers
      plugins := some false
      thread_async := if cfg.apps then some false else none
      utility := some false
      admin_loop := none
      http := none }
    constructionOrder :=
      [Subsystem.services, Subsystem.sequences, Subsystem.sched, Subsystem.state,
       Subsystem.events, Subsystem.callbacks, Subsystem.futures] ++
      (if cfg.apps then [Subsystem.appManagement, Subsystem.threading] else []) ++
      [Subsystem.executor, Subsystem.plugins] ++
      (if cfg.apps then [Subsystem.threadAsync] else []) ++
      [Subsystem.utility]
    scheduledTasks :=
      (if cfg.apps then [TaskKind.threadAsyncLoop] else []) ++ [TaskKind.utilityLoop] }

/-- Whether a given subsystem handle is present in an orchestrator state. -/
def AppDaemon.present (s : AppDaemon) : Subsystem → Bool
  | Subsystem.services => s.services.isSome
  | Subsystem.sequences => s.sequences.isSome
  | Subsystem.sched => s.sched.isSome
  | Subsystem.state => s.state.isSome
  | Subsystem.events => s.events.isSome
  | Subsystem.callbacks => s.callbacks.isSome
  | Subsystem.futures => s.futures.isSome
  | Subsystem.appManagement => s.app_management.isSome
  | Subsystem.threading => s.threading.isSome
  | Subsystem.executor => s.executor.isSome
  | Subsystem.plugins => s.plugins.isSome
  | Subsystem.threadAsync => s.thread_async.isSome
  | Subsystem.utility => s.utility.isSome
  | Subsystem.adminLoop => s.admin_loop.isSome

/--
Cooperative stop request on a subsystem handle. Modelled from the spec:
the concrete subsystems (admin loop, cross-thread dispatch, scheduler,
utility loop, plugin manager, HTTP layer) live outside src/, and the
subsystem contract of the spec gives each an idempotent, non-blocking
`stop()` that asks the loop to exit at its next iteration boundary. This
is modelled as setting a stop-requested flag on a present handle; absent
handles have no stop method to call.
-/
def requestStop : Option Bool → Option Bool
  | none => none
  | some _ => some true

/--
Embedding of `AppDaemon.stop` (appdaemon.py lines 137 to 148): sets the
`stopping` flag, then calls `stop()` on each handle, in source order
admin_loop, thread_async, sched, utility, plugins, with each call guarded
by an `is not None` check. The second component records, in order, the
subsystems on which a stop was requested.
-/
def AppDaemon.stop (s : AppDaemon) : AppDaemon × List Subsystem :=
  ({ s with
      stopping := true
      admin_loop := requestStop s.admin_loop
      thread_async := requestStop s.thread_async
      sched := requestStop s.sched
      utility := requestStop s.utility
      plugins := requestStop s.plugins },
   (if s.admin_loop.isSome then [Subsystem.adminLoop] else []) ++
   (if s.thread_async.isSome then [Subsystem.threadAsync] else []) ++
   (if s.sched.isSome then [Subsystem.sched] else []) ++
   (if s.utility.isSome then [Subsystem.utility] else []) ++
   (if s.plugins.isSome then [Subsystem.plugins] else []))

/-- The orchestrator state after `AppDaemon.stop`. -/
def stopState (s : AppDaemon) : AppDaemon := (AppDaemon.stop s).1

/--
Embedding of `AppDaemon.register_http` (appdaemon.py lines 158 to 168):
stores the HTTP layer reference; when `http.old_admin` or `http.admin`
is not None, constructs the admin loop and schedules its perpetual task.
The second component lists the tasks scheduled by this call.
-/
def AppDaemon.register_http (s : AppDaemon) (layer : HTTPLayer) : AppDaemon × List TaskKind :=
  let s1 := { s with http := some layer }
  if layer.old_admin.isSome || layer.admin.isSome then
    ({ s1 with admin_loop := some false }, [TaskKind.adminLoopTask])
  else
    (s1, [])

/-! ## Process supervisor (src/appdaemon/__main__.py) -/

/--
Supervisor-held references: the orchestrator and, when the HTTP layer was
constructed, its handle with a stop-requested flag (`http_object` in
`ADMain`).
-/
structure ADMainState where
  AD : AppDaemon
  http_object : Option Bool
  deriving DecidableEq, Repr

/--
Embedding of `ADMain.stop` (main module lines 185 to 191): logs, calls
`AD.stop()`, then stops the HTTP object when one was constructed.
-/
def ADMain.stop (m : ADMainState) : ADMainState :=
  { AD := stopState m.AD
    http_object := requestStop m.http_object }

/-- The signals handled by `ADMain.handle_sig` (main module lines 158 to 183). -/
inductive Sig
  | sigusr1
  | sighup
  | sigint
  | sigterm
  deriving DecidableEq, Repr

/-- An individual action performed by the signal handler. `enqueueAsync`
is a `call_async_no_wait` non-blocking enqueue naming its target;
`logInfo` is a synchronous log call; `syncStop` is a direct synchronous
call to `ADMain.stop` from inside the handler. -/
inductive HandlerAction
  | enqueueAsync (target : String)
  | logInfo (msg : String)
  | syncStop
  deriving DecidableEq, Repr

/--
Embedding of `ADMain.handle_sig` (main module lines 158 to 183) as the
list of actions the handler performs for each signal, in source order.
The four `if` statements test `signum` against distinct signals, so they
behave as a case split.
-/
def handle_sig : Sig → List HandlerAction
  | Sig.sigusr1 =>
      [HandlerAction.enqueueAsync "sched.dump_schedule",
       HandlerAction.enqueueAsync "callbacks.dump_callbacks",
       HandlerAction.enqueueAsync "threading.dump_threads",
       HandlerAction.enqueueAsync "app_management.dump_objects",
       HandlerAction.enqueueAsync "sched.dump_sun"]
  | Sig.sighup =>
      [HandlerAction.enqueueAsync "app_management.check_app_updates"]
  | Sig.sigint =>
      [HandlerAction.logInfo "Keyboard interrupt", HandlerAction.syncStop]
  | Sig.sigterm =>
      [HandlerAction.logInfo "SIGTERM Received", HandlerAction.syncStop]

/-- Whether a handler action is a non-blocking asynchronous enqueue. -/
def HandlerAction.isEnqueue : HandlerAction → Bool
  | HandlerAction.enqueueAsync _ => true
  | _ => false

/--
The Python value bound to the `api` argument of `ADMain.run`. In
`ADMain.main` (main module line 298) it is
`config["api"] or ` the empty dict when the `api` key is present, and
None otherwise; the value False can only arise from a direct caller.
-/
inductive ApiArg
  | pyNone
  | pyFalse
  | conf
  deriving DecidableEq, Repr

/-- The `api` argument computed by `ADMain.main` (main module line 298)
from whether the configuration mapping has an `api` key. -/
def mainApiArg (apiSectionPresent : Bool) : ApiArg :=
  if apiSectionPresent then ApiArg.conf else ApiArg.pyNone

/-- Arguments of `ADMain.run` relevant to its control flow: whether the
uvloop install branch fires, presence of the dashboard, legacy admin and
new admin configs, the api argument value, and presence of the HTTP
config. -/
structure RunArgs where
  uvloopCfg : Bool := false
  hadashboard : Bool := false
  admin : Bool := false
  aui : Bool := false
  api : ApiArg := ApiArg.pyNone
  http : Bool := false
  deriving DecidableEq, Repr

/-- The condition of the no-consumers branch in `ADMain.run` (main module
line 230): `hadashboard is None and admin is None and aui is None and
api is False`. -/
def httpConsumersAbsent (a : RunArgs) : Bool :=
  !a.hadashboard && !a.admin && !a.aui && (a.api == ApiArg.pyFalse)

/-- Observable events of the `ADMain.run` body, in order. -/
inductive RunEvent
  | uvloopInstalled
  | adConstructed
  | httpDisabledLogged
  | noConsumersLogged
  | httpConstructed
  | httpRegistered
  | tasksAwaited
  | adTerminated
  | stoppedLogged
  | errorWarningsLogged
  deriving DecidableEq, Repr

/--
The events of the `ADMain.run` try block when nothing raises (main
module lines 214 to 257), in source order: optional uvloop install,
orchestrator construction, then either the HTTP-disabled log, the
no-consumers log, or HTTP construction plus registration, then the joined
wait on all scheduled tasks, `AD.terminate()`, and the stopped log.
-/
def runBodyEvents (a : RunArgs) : List RunEvent :=
  (if a.uvloopCfg then [RunEvent.uvloopInstalled] else []) ++
  [RunEvent.adConstructed] ++
  (if !a.http then [RunEvent.httpDisabledLogged]
   else if httpConsumersAbsent a then [RunEvent.noConsumersLogged]
   else [RunEvent.httpConstructed, RunEvent.httpRegistered]) ++
  [RunEvent.tasksAwaited, RunEvent.adTerminated, RunEvent.stoppedLogged]

/-- Outcome of a call to `ADMain.run`: a normal return, a return after
the single `except Exception` boundary caught and logged a fault, or a
fault propagating to the caller. -/
inductive RunResult
  | normal (events : List RunEvent)
  | caught (events : List RunEvent)
  | propagated (events : List RunEvent)
  deriving DecidableEq, Repr

/--
Embedding of `ADMain.run` (main module lines 194 to 267). The entire
body is inside one try block whose `except Exception` handler logs a
warning block and falls off the end of the function. `faultAfter = some
k` injects an exception (any instance of the Python Exception class)
after the first `k` body events have happened; the handler then runs and
the function returns normally. `faultAfter = none` means nothing raises.
-/
def ADMain.run (a : RunArgs) (faultAfter : Option Nat) : RunResult :=
  match faultAfter with
  | none => RunResult.normal (runBodyEvents a)
  | some k => RunResult.caught ((runBodyEvents a).take k ++ [RunEvent.errorWarningsLogged])

/-! ## Startup validation (src/appdaemon/__main__.py, main and helpers) -/

/-- Which of the pre-orchestration validation steps succeed for a given
invocation: a configuration file path was resolved, the file was read
without error, the mapping has an `appdaemon` section, and
`ADConfig.model_validate` succeeds. -/
structure MainEnv where
  configDirFound : Bool
  configReadable : Bool
  hasAppdaemonSection : Bool
  schemaValid : Bool
  deriving DecidableEq, Repr

/-- Process outcome of startup: a `sys.exit` with the given status, or
proceeding to orchestration. A bare `sys.exit()` exits with status 0. -/
inductive StartupOutcome
  | exited (code : Nat)
  | proceeded
  deriving DecidableEq, Repr

/--
Embedding of `_open_config_file` (main module lines 89 to 112): no
configuration path resolved prints FATAL and calls `sys.exit(1)`; a read
error prints the error and calls bare `sys.exit()`, which exits with
status 0; a missing `appdaemon` section likewise calls bare `sys.exit()`.
-/
def openConfigFile (e : MainEnv) : StartupOutcome :=
  if e.configDirFound = false then StartupOutcome.exited 1
  else if e.configReadable = false then StartupOutcome.exited 0
  else if e.hasAppdaemonSection = false then StartupOutcome.exited 0
  else StartupOutcome.proceeded

/--
Embedding of the validation part of `ADMain.main` (main module lines 279
and 286 to 290): `_open_config_file` runs first; afterwards a
`ValidationError` from `ADConfig.model_validate` is logged and answered
with `sys.exit(1)`.
-/
def mainStartup (e : MainEnv) : StartupOutcome :=
  match openConfigFile e with
  | StartupOutcome.exited c => StartupOutcome.exited c
  | StartupOutcome.proceeded =>
      if e.schemaValid = false then StartupOutcome.exited 1
      else StartupOutcome.proceeded

/-- Whether the invocation hits one of the four validation failures named
by the spec. -/
def MainEnv.validationFailure (e : MainEnv) : Bool :=
  !e.configDirFound || !e.configReadable || !e.hasAppdaemonSection || !e.schemaValid

/-! ## Concrete inputs used by witnesses and counterexamples -/

/-- A configuration with apps enabled (the `disable_apps` default). -/
def cfgAppsEnabled : ADConfig := { disable_apps := false }

/-- A configuration with apps disabled. -/
def cfgAppsDisabled : ADConfig := { disable_apps := true }

/-- Scenario C of the spec as produced by `ADMain.main`: HTTP config
present, dashboard, legacy admin, new admin and api sections all absent,
so the api argument is None. -/
def scenarioC : RunArgs :=
  { uvloopCfg := false, hadashboard := false, admin := false, aui := false,
    api := ApiArg.pyNone, http := true }

/-- An invocation whose configuration file read fails. -/
def envUnreadableConfig : MainEnv :=
  { configDirFound := true, configReadable := false,
    hasAppdaemonSection := true, schemaValid := true }

/-- An invocation whose `appdaemon` section fails schema validation. -/
def envSchemaInvalid : MainEnv :=
  { configDirFound := true, configReadable := true,
    hasAppdaemonSection := true, schemaValid := false }

/-- A supervisor state with both an orchestrator and an HTTP object. -/
def supervisorSample : ADMainState :=
  { AD := (AppDaemon.init cfgAppsEnabled).state, http_object := some false }

/-! ## Helper lemmas -/

theorem requestStop_idem (x : Option Bool) : requestStop (requestStop x) = requestStop x := by
  cases x <;> rfl

/-! ## Claims -/

/--
C1: the claim states that when an HTTP configuration is present but the
legacy admin, new admin, dashboard and API consumers are all absent or
disabled, `ADMain.run` skips HTTP construction and logs that no consumers
are configured. Evaluating the embedded run body at exactly that input
(scenario C, with the api argument None as `ADMain.main` produces for an
absent api section) shows the code constructs the HTTP layer instead: the
no-consumers branch tests `api is False`, but `ADMain.main` only ever
passes None or a mapping, never False, so that branch is unreachable from
main and the layer is built with no consumers configured.
-/
theorem C1_http_constructed_without_consumers :
    RunEvent.httpConstructed ∈ runBodyEvents scenarioC ∧
    RunEvent.noConsumersLogged ∉ runBodyEvents scenarioC ∧
    mainApiArg false = ApiArg.pyNone ∧
    mainApiArg true = ApiArg.conf := by decide

/--
C2 counterexample: with apps enabled, `AppDaemon.__init__` constructs the
application manager (line 105) strictly before the worker-pinning thread
pool (line 109), refuting the claimed pool-before-manager order at the
default configuration.
-/
theorem C2_counterexample :
    cfgAppsEnabled.apps = true ∧
    ¬ (List.indexOf Subsystem.threading (AppDaemon.init cfgAppsEnabled).constructionOrder <
       List.indexOf Subsystem.appManagement (AppDaemon.init cfgAppsEnabled).constructionOrder) ∧
    List.indexOf Subsystem.appManagement (AppDaemon.init cfgAppsEnabled).constructionOrder <
      List.indexOf Subsystem.threading (AppDaemon.init cfgAppsEnabled).constructionOrder := by
  decide

/--
C2 amended: during orchestrator construction with apps enabled, both the
application manager and the worker-pinning thread pool are constructed,
and the application manager comes strictly first, the reverse of the
relative order the claim states.
-/
theorem C2_app_management_before_threading (cfg : ADConfig) (h : cfg.apps = true) :
    Subsystem.appManagement ∈ (AppDaemon.init cfg).constructionOrder ∧
    Subsystem.threading ∈ (AppDaemon.init cfg).constructionOrder ∧
    List.indexOf Subsystem.appManagement (AppDaemon.init cfg).constructionOrder <
      List.indexOf Subsystem.threading (AppDaemon.init cfg).constructionOrder := by
  simp only [AppDaemon.init, h, if_true]
  decide

/-- C2 witness: the amended order fact at the default apps-enabled config. -/
theorem C2_witness :
    cfgAppsEnabled.apps = true ∧
    (Subsystem.appManagement ∈ (AppDaemon.init cfgAppsEnabled).constructionOrder ∧
     Subsystem.threading ∈ (AppDaemon.init cfgAppsEnabled).constructionOrder ∧
     List.indexOf Subsystem.appManagement (AppDaemon.init cfgAppsEnabled).constructionOrder <
       List.indexOf Subsystem.threading (AppDaemon.init cfgAppsEnabled).constructionOrder) :=
  ⟨by decide, C2_app_management_before_threading cfgAppsEnabled (by decide)⟩

/--
C3 counterexample: for the interrupt signal the handler is not a lone
non-blocking enqueue: it logs and then synchronously calls the
supervisor stop routine from inside the handler.
-/
theorem C3_counterexample :
    List.all (handle_sig Sig.sigint) HandlerAction.isEnqueue = false ∧
    HandlerAction.syncStop ∈ handle_sig Sig.sigint := by decide

/--
C3 amended: for the diagnostics-dump and reload signals the handler only
performs non-blocking asynchronous enqueues; for interrupt and terminate
it logs a message and then synchronously invokes the supervisor stop
routine before returning.
-/
theorem C3_handler_actions :
    List.all (handle_sig Sig.sigusr1) HandlerAction.isEnqueue = true ∧
    List.all (handle_sig Sig.sighup) HandlerAction.isEnqueue = true ∧
    handle_sig Sig.sigint = [HandlerAction.logInfo "Keyboard interrupt", HandlerAction.syncStop] ∧
    handle_sig Sig.sigterm = [HandlerAction.logInfo "SIGTERM Received", HandlerAction.syncStop] := by
  decide

/--
C4 counterexample: an unreadable configuration file is a validation
failure, yet startup terminates through a bare `sys.exit()`, that is with
exit status 0, not a non-zero status as claimed.
-/
theorem C4_counterexample :
    MainEnv.validationFailure envUnreadableConfig = true ∧
    mainStartup envUnreadableConfig = StartupOutcome.exited 0 := by decide

/--
C4 amended: every one of the four validation failures is fatal, in that
startup never proceeds to orchestration; the exit status is 0 exactly
when the failure is an unreadable configuration file or a missing
appdaemon section (both bare `sys.exit()`), and 1 for a missing
configuration directory or a schema validation error.
-/
theorem C4_validation_failures_fatal (e : MainEnv) (h : e.validationFailure = true) :
    mainStartup e ≠ StartupOutcome.proceeded ∧
    (mainStartup e = StartupOutcome.exited 0 ↔
      (e.configDirFound = true ∧ (e.configReadable = false ∨ e.hasAppdaemonSection = false))) := by
  obtain ⟨a, b, c, d⟩ := e
  revert h
  cases a <;> cases b <;> cases c <;> cases d <;> decide

/-- C4 witness: the amended statement at a schema-validation failure. -/
theorem C4_witness :
    MainEnv.validationFailure envSchemaInvalid = true ∧
    (mainStartup envSchemaInvalid ≠ StartupOutcome.proceeded ∧
     (mainStartup envSchemaInvalid = StartupOutcome.exited 0 ↔
       (envSchemaInvalid.configDirFound = true ∧
        (envSchemaInvalid.configReadable = false ∨
         envSchemaInvalid.hasAppdaemonSection = false)))) :=
  ⟨by decide, C4_validation_failures_fatal envSchemaInvalid (by decide)⟩

/--
C5: with apps enabled `AppDaemon.__init__` schedules exactly the
cross-thread dispatch task and the utility task, in that order; with apps
disabled it schedules exactly the utility task, the worker-pinning pool,
application manager and cross-thread dispatch handle are absent, and
scheduler, state store, event bus, callback registry, execution bridge
and executor are still constructed.
-/
theorem C5_perpetual_tasks (cfg : ADConfig) :
    (cfg.apps = true →
      (AppDaemon.init cfg).scheduledTasks = [TaskKind.threadAsyncLoop, TaskKind.utilityLoop]) ∧
    (cfg.apps = false →
      (AppDaemon.init cfg).scheduledTasks = [TaskKind.utilityLoop] ∧
      (AppDaemon.init cfg).state.threading = none ∧
      (AppDaemon.init cfg).state.app_management = none ∧
      (AppDaemon.init cfg).state.thread_async = none ∧
      (AppDaemon.init cfg).state.sched.isSome = true ∧
      (AppDaemon.init cfg).state.state.isSome = true ∧
      (AppDaemon.init cfg).state.events.isSome = true ∧
      (AppDaemon.init cfg).state.callbacks.isSome = true ∧
      (AppDaemon.init cfg).state.futures.isSome = true ∧
      (AppDaemon.init cfg).state.executor.isSome = true) := by
  refine ⟨fun h => ?_, fun h => ?_⟩ <;> simp [AppDaemon.init, h]

/-- C5 witness: both branches evaluated at concrete configurations. -/
theorem C5_witness :
    cfgAppsEnabled.apps = true ∧
    (AppDaemon.init cfgAppsEnabled).scheduledTasks =
      [TaskKind.threadAsyncLoop, TaskKind.utilityLoop] ∧
    cfgAppsDisabled.apps = false ∧
    (AppDaemon.init cfgAppsDisabled).scheduledTasks = [TaskKind.utilityLoop] ∧
    (AppDaemon.init cfgAppsDisabled).state.threading = none ∧
    (AppDaemon.init cfgAppsDisabled).state.app_management = none :=
  ⟨by decide, (C5_perpetual_tasks cfgAppsEnabled).1 (by decide), by decide,
   ((C5_perpetual_tasks cfgAppsDisabled).2 (by decide)).1,
   ((C5_perpetual_tasks cfgAppsDisabled).2 (by decide)).2.1,
   ((C5_perpetual_tasks cfgAppsDisabled).2 (by decide)).2.2.1⟩

/--
C6: `register_http` stores the HTTP layer reference, and it schedules the
perpetual admin-loop task (and exactly that task) precisely when at least
one of the legacy admin or new admin consumers is configured on the
layer; with both absent it schedules no task at all.
-/
theorem C6_register_http (s : AppDaemon) (layer : HTTPLayer) :
    (AppDaemon.register_http s layer).1.http = some layer ∧
    ((AppDaemon.register_http s layer).2 = [TaskKind.adminLoopTask] ↔
      (layer.old_admin.isSome || layer.admin.isSome) = true) ∧
    ((AppDaemon.register_http s layer).2 = [] ↔
      (layer.old_admin = none ∧ layer.admin = none)) := by
  cases ho : layer.old_admin <;> cases ha : layer.admin <;>
    simp [AppDaemon.register_http, ho, ha]

/-- C6 witness: registering a layer with both admin consumers absent on
the freshly constructed orchestrator. -/
theorem C6_witness :
    (AppDaemon.register_http (AppDaemon.init cfgAppsEnabled).state
      { old_admin := none, admin := none }).1.http =
        some { old_admin := none, admin := none } ∧
    ((AppDaemon.register_http (AppDaemon.init cfgAppsEnabled).state
      { old_admin := none, admin := none }).2 = [TaskKind.adminLoopTask] ↔
      ((none : Option Unit).isSome || (none : Option Unit).isSome) = true) ∧
    ((AppDaemon.register_http (AppDaemon.init cfgAppsEnabled).state
      { old_admin := none, admin := none }).2 = [] ↔
      ((none : Option Unit) = none ∧ (none : Option Unit) = none)) :=
  C6_register_http (AppDaemon.init cfgAppsEnabled).state { old_admin := none, admin := none }

/--
C7: `AppDaemon.stop` sets the stopping flag and requests stop on exactly
the present subsystems, in the fixed order admin loop, cross-thread
dispatch loop, scheduler, utility loop, plugin manager; absent handles
are skipped, and the function is total, so no error is raised.
-/
theorem C7_stop_order (s : AppDaemon) :
    (AppDaemon.stop s).1.stopping = true ∧
    (AppDaemon.stop s).2 =
      List.filter (fun k => AppDaemon.present s k)
        [Subsystem.adminLoop, Subsystem.threadAsync, Subsystem.sched,
         Subsystem.utility, Subsystem.plugins] := by
  refine ⟨rfl, ?_⟩
  cases hA : s.admin_loop <;> cases hT : s.thread_async <;> cases hS : s.sched <;>
    cases hU : s.utility <;> cases hP : s.plugins <;>
    simp [AppDaemon.stop, AppDaemon.present, hA, hT, hS, hU, hP, List.filter]

/-- C7 witness: the stop order on the apps-disabled orchestrator, where
the admin loop and the cross-thread dispatch loop are absent. -/
theorem C7_witness :
    (AppDaemon.stop (AppDaemon.init cfgAppsDisabled).state).1.stopping = true ∧
    (AppDaemon.stop (AppDaemon.init cfgAppsDisabled).state).2 =
      List.filter (fun k => AppDaemon.present (AppDaemon.init cfgAppsDisabled).state k)
        [Subsystem.adminLoop, Subsystem.threadAsync, Subsystem.sched,
         Subsystem.utility, Subsystem.plugins] :=
  C7_stop_order (AppDaemon.init cfgAppsDisabled).state

/--
C8: calling stop twice, on the supervisor and hence on the orchestrator,
leaves exactly the state a single call leaves: the stopping flag and the
stop-requested flags of the present subsystems, including the HTTP
object, are unchanged by the second call.
-/
theorem C8_stop_idempotent (m : ADMainState) :
    ADMain.stop (ADMain.stop m) = ADMain.stop m ∧
    stopState (stopState m.AD) = stopState m.AD := by
  obtain ⟨s, ho⟩ := m
  obtain ⟨c, bo, st, sv, sq, sc, sta, ev, cb, fu, am, th, ex, pl, ta, ut, al, ht⟩ := s
  refine ⟨?_, ?_⟩ <;>
    simp [ADMain.stop, stopState, AppDaemon.stop, requestStop_idem]

/-- C8 witness: idempotence at a concrete supervisor state holding the
apps-enabled orchestrator and an HTTP object. -/
theorem C8_witness :
    ADMain.stop (ADMain.stop supervisorSample) = ADMain.stop supervisorSample ∧
    stopState (stopState supervisorSample.AD) = stopState supervisorSample.AD :=
  C8_stop_idempotent supervisorSample

/--
C9: the whole body of `ADMain.run` sits inside a single try whose
`except Exception` handler logs a warning block and returns; whatever
point of the body raises, the result is a caught, logged, orderly return,
and a propagated exception is never produced.
-/
theorem C9_run_never_raises (a : RunArgs) (fa : Option Nat) :
    (∀ evs, ADMain.run a fa ≠ RunResult.propagated evs) ∧
    (∀ k, ADMain.run a (some k) =
      RunResult.caught ((runBodyEvents a).take k ++ [RunEvent.errorWarningsLogged])) ∧
    ADMain.run a none = RunResult.normal (runBodyEvents a) := by
  refine ⟨?_, fun k => rfl, rfl⟩
  intro evs hcontra
  cases fa <;> simp [ADMain.run] at hcontra

/-- C9 witness: the orderly outcomes at scenario C, both for a fault-free
body and for a fault injected right after orchestrator construction. -/
theorem C9_witness :
    ADMain.run scenarioC none = RunResult.normal (runBodyEvents scenarioC) ∧
    ADMain.run scenarioC (some 1) =
      RunResult.caught ((runBodyEvents scenarioC).take 1 ++ [RunEvent.errorWarningsLogged]) :=
  ⟨(C9_run_never_raises scenarioC none).2.2, (C9_run_never_raises scenarioC (some 1)).2.1 1⟩

/--
C10: the claim states that every accepted input yields a configuration
whose exclude_dirs contains `__pycache__`, whether or not the caller
supplied the field. Evaluating the embedded validation shows otherwise:
when the caller omits exclude_dirs the pydantic default is used without
running the `ensure_pychace_excluded` validator, so the set stays empty;
the entry is added only when the caller supplies a value.
-/
theorem C10_pycache_default_missing :
    "__pycache__" ∉ (ADConfig.model_validate { exclude_dirs := none }).exclude_dirs ∧
    "__pycache__" ∈ (ADConfig.model_validate { exclude_dirs := some [] }).exclude_dirs ∧
    "__pycache__" ∈
      (ADConfig.model_validate { exclude_dirs := some ["custom"] }).exclude_dirs := by
  decide
